import Mathlib

/-!
Verification development for the lateral control-law core:
shallow embedding of `common/pid.py`, `selfdrive/controls/lib/pid_lateral_error.py`
and `selfdrive/controls/lib/latcontrol_torque.py`, with theorems settling the
spec claims about them.

Numeric model: Python floats are embedded as exact rationals (`ℚ`) for the PID
controllers and the torque controller, and as reals (`ℝ`) for `LateralErrorPI`,
whose gain derivation uses a square root (`** 0.5`).
-/

/-- Piecewise-linear interpolation on a list of (breakpoint, value) pairs with
clamped extrapolation at both ends.  Embeds the documented behavior of
`np.interp` (and the `interp` of `openpilot.common.numpy_fast`, which is not
under src/ and is modelled from the spec's GainSchedule contract: query below
the first breakpoint clamps to the first value, above the last clamps to the
last value, linear interpolation between). -/
def interpSegs {R : Type} [LinearOrderedField R] (x : R) : List (R × R) → R
  | [] => 0
  | [(_, y1)] => y1
  | (x1, y1) :: (x2, y2) :: rest =>
    if x ≤ x1 then y1
    else if x ≤ x2 then y1 + (y2 - y1) * (x - x1) / (x2 - x1)
    else interpSegs x ((x2, y2) :: rest)

/-- `np.interp(x, xp, fp)` over exact numbers. -/
def interp {R : Type} [LinearOrderedField R] (x : R) (xp fp : List R) : R :=
  interpSegs x (xp.zip fp)

/-- `np.clip(x, lo, hi)`: `min (max x lo) hi` (the upper bound dominates when
`lo > hi`, exactly as numpy documents). -/
def npClip {R : Type} [LinearOrder R] (x lo hi : R) : R := min (max x lo) hi

/-- `clip` of `openpilot.common.numpy_fast` (not under src/; modelled from the
spec's clamping contract): `max(lo, min(hi, x))`. -/
def clip {R : Type} [LinearOrder R] (x lo hi : R) : R := max lo (min hi x)

/-- `float(np.sign(x))`. -/
def npSign {R : Type} [LinearOrderedField R] (x : R) : R :=
  if 0 < x then 1 else if x < 0 then -1 else 0

/-! ## PIDController (`common/pid.py`)

Gain tables are kept in the `[[speeds], [values]]` form the constructor
normalizes scalars into; the mutable attributes set by `__init__`/`reset`
and rewritten by `update` form `PIDState`. -/

structure PIDParams where
  kp_bp : List ℚ
  kp_v : List ℚ
  ki_bp : List ℚ
  ki_v : List ℚ
  kd_bp : List ℚ
  kd_v : List ℚ
  k_f : ℚ
  pos_limit : ℚ
  neg_limit : ℚ
  i_rate : ℚ

structure PIDState where
  p : ℚ
  i : ℚ
  d : ℚ
  f : ℚ
  control : ℚ
  speed : ℚ

/-- The `k_p` property: `np.interp(self.speed, self._k_p[0], self._k_p[1])`. -/
def PIDController.k_p (pr : PIDParams) (speed : ℚ) : ℚ := interp speed pr.kp_bp pr.kp_v

/-- The `k_i` property. -/
def PIDController.k_i (pr : PIDParams) (speed : ℚ) : ℚ := interp speed pr.ki_bp pr.ki_v

/-- The `k_d` property. -/
def PIDController.k_d (pr : PIDParams) (speed : ℚ) : ℚ := interp speed pr.kd_bp pr.kd_v

/-- State after `reset()` (also the state right after `__init__`, which sets
`speed = 0.0` and calls `reset`). -/
def PIDController.resetState : PIDState :=
  { p := 0, i := 0, d := 0, f := 0, control := 0, speed := 0 }

/-- The tentative integral `i = self.i + error * self.k_i * self.i_rate`
(line 54 of `common/pid.py`). -/
def PIDController.tentative_i (pr : PIDParams) (s : PIDState) (error speed : ℚ) : ℚ :=
  s.i + error * PIDController.k_i pr speed * pr.i_rate

/-- The tentative total `test_control = self.p + i + self.d + self.f`
(line 57 of `common/pid.py`), with `p`, `d`, `f` as just recomputed. -/
def PIDController.test_control (pr : PIDParams) (s : PIDState)
    (error error_rate speed feedforward : ℚ) : ℚ :=
  error * PIDController.k_p pr speed + PIDController.tentative_i pr s error speed
    + error_rate * PIDController.k_d pr speed + feedforward * pr.k_f

/-- `PIDController.update`: one control cycle of `common/pid.py` lines 47-64. -/
def PIDController.update (pr : PIDParams) (s : PIDState)
    (error error_rate speed feedforward : ℚ) (freeze_integrator : Bool) : PIDState :=
  let p := error * PIDController.k_p pr speed
  let f := feedforward * pr.k_f
  let d := error_rate * PIDController.k_d pr speed
  let i :=
    if freeze_integrator then s.i
    else
      let it := PIDController.tentative_i pr s error speed
      let tc := p + it + d + f
      let i_upperbound := if tc > pr.pos_limit then s.i else pr.pos_limit
      let i_lowerbound := if tc < pr.neg_limit then s.i else pr.neg_limit
      npClip it i_lowerbound i_upperbound
  let control := p + i + d + f
  { p := p, i := i, d := d, f := f,
    control := npClip control pr.neg_limit pr.pos_limit, speed := speed }

/-- C3: with `freeze_integrator` false, whenever the tentative total exceeds
`pos_limit` the stored integral does not increase on that cycle; symmetrically,
when it falls below `neg_limit` the integral does not decrease (for states
satisfying the reachable-state invariant `i ≤ pos_limit`, which the third
conjunct shows is preserved by `update` itself). -/
theorem pid_anti_windup (pr : PIDParams) (s : PIDState)
    (error error_rate speed feedforward : ℚ) :
    (PIDController.test_control pr s error error_rate speed feedforward > pr.pos_limit →
      (PIDController.update pr s error error_rate speed feedforward false).i ≤ s.i) ∧
    (PIDController.test_control pr s error error_rate speed feedforward < pr.neg_limit →
      s.i ≤ pr.pos_limit →
      s.i ≤ (PIDController.update pr s error error_rate speed feedforward false).i) ∧
    (s.i ≤ pr.pos_limit →
      (PIDController.update pr s error error_rate speed feedforward false).i ≤ pr.pos_limit) := by
  have hupdate : (PIDController.update pr s error error_rate speed feedforward false).i
      = npClip (PIDController.tentative_i pr s error speed)
          (if PIDController.test_control pr s error error_rate speed feedforward < pr.neg_limit
            then s.i else pr.neg_limit)
          (if PIDController.test_control pr s error error_rate speed feedforward > pr.pos_limit
            then s.i else pr.pos_limit) := rfl
  refine ⟨?_, ?_, ?_⟩
  · intro hpos
    rw [hupdate, if_pos hpos]
    exact min_le_right _ _
  · intro hneg hinv
    rw [hupdate, if_pos hneg]
    by_cases hp : PIDController.test_control pr s error error_rate speed feedforward > pr.pos_limit
    · rw [if_pos hp]
      exact le_min (le_max_right _ _) le_rfl
    · rw [if_neg hp]
      exact le_min (le_max_right _ _) hinv
  · intro hinv
    rw [hupdate]
    by_cases hp : PIDController.test_control pr s error error_rate speed feedforward > pr.pos_limit
    · rw [if_pos hp]
      exact le_trans (min_le_right _ _) hinv
    · rw [if_neg hp]
      exact min_le_right _ _

/-- Fixture: PID with `k_p = 0`, `k_i = 1`, `k_d = 0`, limits `(-1, 1)`, rate 100. -/
def pidFix : PIDParams :=
  { kp_bp := [0], kp_v := [0], ki_bp := [0], ki_v := [1], kd_bp := [0], kd_v := [0],
    k_f := 0, pos_limit := 1, neg_limit := -1, i_rate := 1/100 }

/-- Fixture: a PID state with a large stored integral. -/
def pidSatState : PIDState := { p := 0, i := 2, d := 0, f := 0, control := 0, speed := 0 }

/-- Witness for `pid_anti_windup`: at a concrete saturating input the tentative
total exceeds `pos_limit` and the integral indeed does not grow. -/
theorem pid_anti_windup_witness :
    PIDController.test_control pidFix pidSatState 0 0 0 0 > pidFix.pos_limit ∧
    (PIDController.update pidFix pidSatState 0 0 0 0 false).i ≤ pidSatState.i :=
  ⟨by norm_num [PIDController.test_control, PIDController.tentative_i, PIDController.k_p,
      PIDController.k_i, PIDController.k_d, pidFix, pidSatState, interp, interpSegs],
   (pid_anti_windup pidFix pidSatState 0 0 0 0).1
     (by norm_num [PIDController.test_control, PIDController.tentative_i, PIDController.k_p,
       PIDController.k_i, PIDController.k_d, pidFix, pidSatState, interp, interpSegs])⟩

/-! ## MultiIntegralPIDController (`common/pid.py`)

A cascade of integrators; `k_i_list` holds the normalized
`[[speeds], [values]]` gain tables built by the constructor. -/

structure MIPIDParams where
  kp_bp : List ℚ
  kp_v : List ℚ
  kd_bp : List ℚ
  kd_v : List ℚ
  k_f : ℚ
  k_i_list : List (List ℚ × List ℚ)
  pos_limit : ℚ
  neg_limit : ℚ
  i_rate : ℚ

structure MIPIDState where
  p : ℚ
  d : ℚ
  f : ℚ
  i : ℚ
  control : ℚ
  speed : ℚ
  error_integral : List ℚ

/-- The cascade loop of `common/pid.py` lines 141-149: each integrator advances
by `signal * dt`, and the just-updated value becomes the next integrator's
input signal. -/
def cascadeStep (dt : ℚ) : ℚ → List ℚ → List ℚ
  | _, [] => []
  | signal, v :: rest =>
    let new_val := v + signal * dt
    new_val :: cascadeStep dt new_val rest

/-- `sum(k * i for k, i in zip(ks, vs))`. -/
def dotSum (ks vs : List ℚ) : ℚ := (List.zipWith (fun a b => a * b) ks vs).sum

/-- The `k_i` property: one speed-interpolated gain per integrator. -/
def MultiIntegralPIDController.k_i_values (pr : MIPIDParams) (speed : ℚ) : List ℚ :=
  pr.k_i_list.map (fun t => interp speed t.1 t.2)

/-- The tentative cascade `new_integrals` computed by `update` (lines 141-149),
input signal `error`, step `self.i_rate`. -/
def MultiIntegralPIDController.tentative_integrals (pr : MIPIDParams) (s : MIPIDState)
    (error : ℚ) : List ℚ :=
  cascadeStep pr.i_rate error s.error_integral

/-- The tentative total `test_control = self.p + self.d + self.f + new_i`
(lines 151-153), with `p`, `d`, `f` as just recomputed. -/
def MultiIntegralPIDController.test_control (pr : MIPIDParams) (s : MIPIDState)
    (error error_rate speed feedforward : ℚ) : ℚ :=
  error * interp speed pr.kp_bp pr.kp_v + error_rate * interp speed pr.kd_bp pr.kd_v
    + feedforward * pr.k_f
    + dotSum (MultiIntegralPIDController.k_i_values pr speed)
        (MultiIntegralPIDController.tentative_integrals pr s error)

/-- `MultiIntegralPIDController.update`: one control cycle of `common/pid.py`
lines 127-166. -/
def MultiIntegralPIDController.update (pr : MIPIDParams) (s : MIPIDState)
    (error error_rate speed feedforward : ℚ) (freeze_integrator : Bool) : MIPIDState :=
  let p := error * interp speed pr.kp_bp pr.kp_v
  let d := error_rate * interp speed pr.kd_bp pr.kd_v
  let f := feedforward * pr.k_f
  let kvals := MultiIntegralPIDController.k_i_values pr speed
  let ei :=
    if ¬freeze_integrator ∧ 0 < pr.k_i_list.length then
      let new_integrals := MultiIntegralPIDController.tentative_integrals pr s error
      let new_i := dotSum kvals new_integrals
      let tc := p + d + f + new_i
      if tc ≤ pr.pos_limit ∧ pr.neg_limit ≤ tc then new_integrals else s.error_integral
    else s.error_integral
  let i := dotSum kvals (ei.take pr.k_i_list.length)
  let control := p + d + f + i
  { p := p, d := d, f := f, i := i,
    control := npClip control pr.neg_limit pr.pos_limit, speed := speed,
    error_integral := ei }

/-- A constructor argument for the integral-gain list: a plain number or an
already-formed `[[speeds], [values]]` table (`common/pid.py` lines 89-94). -/
inductive KiSpec where
  | const : ℚ → KiSpec
  | table : List ℚ → List ℚ → KiSpec

/-- Normalization performed by the constructor: numbers become single-point
tables `[[0], [value]]`. -/
def KiSpec.toTable : KiSpec → List ℚ × List ℚ
  | KiSpec.const c => ([0], [c])
  | KiSpec.table bp v => (bp, v)

/-- `MultiIntegralPIDController.__init__` (`common/pid.py` lines 78-100) as a
fallible constructor: an empty `k_i` raises `ValueError`, so no controller
value is produced; otherwise the normalized gain tables and the zeroed state
(`reset`, with one integrator state per gain) are returned. -/
def MultiIntegralPIDController.mk_controller (k_p : KiSpec) (k_i : List KiSpec)
    (k_f : ℚ) (k_d : KiSpec) (pos_limit neg_limit rate : ℚ) :
    Except String (MIPIDParams × MIPIDState) :=
  if k_i.isEmpty then
    Except.error ("k_i must be a non-empty list of coefficients/tables")
  else
    Except.ok
      ({ kp_bp := k_p.toTable.1, kp_v := k_p.toTable.2,
         kd_bp := k_d.toTable.1, kd_v := k_d.toTable.2,
         k_f := k_f,
         k_i_list := k_i.map KiSpec.toTable,
         pos_limit := pos_limit, neg_limit := neg_limit, i_rate := 1 / rate },
       { p := 0, d := 0, f := 0, i := 0, control := 0, speed := 0,
         error_integral := List.replicate k_i.length 0 })

/-- The cascade preserves the number of integrator states. -/
theorem cascadeStep_length (dt : ℚ) (signal : ℚ) (l : List ℚ) :
    (cascadeStep dt signal l).length = l.length := by
  induction l generalizing signal with
  | nil => rfl
  | cons v rest ih => simp [cascadeStep, ih]

/-- C2: with `freeze_integrator` false and at least one integrator (as every
constructed controller has), the commit is atomic: if the tentative total lies
within `[neg_limit, pos_limit]` the whole chain is replaced by the tentative
cascade, otherwise it is left exactly as it was; and on any cycle (frozen or
not) the chain is either the full tentative cascade or the untouched prior
chain, never a mixture. -/
theorem multi_integral_atomic_commit (pr : MIPIDParams) (s : MIPIDState)
    (error error_rate speed feedforward : ℚ) (hn : 0 < pr.k_i_list.length) :
    ((MultiIntegralPIDController.test_control pr s error error_rate speed feedforward
        ≤ pr.pos_limit ∧
      pr.neg_limit ≤
        MultiIntegralPIDController.test_control pr s error error_rate speed feedforward) →
      (MultiIntegralPIDController.update pr s error error_rate speed feedforward
          false).error_integral
        = MultiIntegralPIDController.tentative_integrals pr s error) ∧
    (¬(MultiIntegralPIDController.test_control pr s error error_rate speed feedforward
        ≤ pr.pos_limit ∧
      pr.neg_limit ≤
        MultiIntegralPIDController.test_control pr s error error_rate speed feedforward) →
      (MultiIntegralPIDController.update pr s error error_rate speed feedforward
          false).error_integral
        = s.error_integral) ∧
    (∀ freeze : Bool,
      (MultiIntegralPIDController.update pr s error error_rate speed feedforward
          freeze).error_integral
        = MultiIntegralPIDController.tentative_integrals pr s error ∨
      (MultiIntegralPIDController.update pr s error error_rate speed feedforward
          freeze).error_integral
        = s.error_integral) := by
  have hupdate : ∀ freeze : Bool,
      (MultiIntegralPIDController.update pr s error error_rate speed feedforward
          freeze).error_integral
        = if ¬freeze ∧ 0 < pr.k_i_list.length then
            if MultiIntegralPIDController.test_control pr s error error_rate speed feedforward
                ≤ pr.pos_limit ∧
              pr.neg_limit ≤
                MultiIntegralPIDController.test_control pr s error error_rate speed feedforward
            then MultiIntegralPIDController.tentative_integrals pr s error
            else s.error_integral
          else s.error_integral := by
    intro freeze
    rfl
  refine ⟨?_, ?_, ?_⟩
  · intro hin
    rw [hupdate, if_pos ⟨by simp, hn⟩, if_pos hin]
  · intro hout
    rw [hupdate, if_pos ⟨by simp, hn⟩, if_neg hout]
  · intro freeze
    rw [hupdate]
    by_cases h1 : ¬freeze ∧ 0 < pr.k_i_list.length
    · rw [if_pos h1]
      by_cases h2 : MultiIntegralPIDController.test_control pr s error error_rate speed feedforward
          ≤ pr.pos_limit ∧
        pr.neg_limit ≤
          MultiIntegralPIDController.test_control pr s error error_rate speed feedforward
      · rw [if_pos h2]
        exact Or.inl rfl
      · rw [if_neg h2]
        exact Or.inr rfl
    · rw [if_neg h1]
      exact Or.inr rfl

/-- Fixture: multi-integral params with two integrators, gains `[1, 0]`,
limits `(-1, 1)`, rate 100. -/
def mipidFix : MIPIDParams :=
  { kp_bp := [0], kp_v := [0], kd_bp := [0], kd_v := [0], k_f := 0,
    k_i_list := [([0], [1]), ([0], [0])],
    pos_limit := 1, neg_limit := -1, i_rate := 1/100 }

/-- Fixture: a two-integrator state. -/
def mipidState : MIPIDState :=
  { p := 0, d := 0, f := 0, i := 0, control := 0, speed := 0,
    error_integral := [1/2, 1/4] }

/-- Witness for `multi_integral_atomic_commit`: at a concrete in-limits input
the whole chain advances to the tentative cascade. -/
theorem multi_integral_atomic_commit_witness :
    (MultiIntegralPIDController.update mipidFix mipidState 1 0 0 0 false).error_integral
      = MultiIntegralPIDController.tentative_integrals mipidFix mipidState 1 :=
  (multi_integral_atomic_commit mipidFix mipidState 1 0 0 0 (by norm_num [mipidFix])).1
    (by norm_num [MultiIntegralPIDController.test_control,
      MultiIntegralPIDController.k_i_values,
      MultiIntegralPIDController.tentative_integrals, cascadeStep, dotSum,
      mipidFix, mipidState, interp, interpSegs])

/-- C8: the tentative cascade computed by `MultiIntegralPIDController.update`
satisfies the true-cascade recurrence: integrator 0 advances by `error * dt`,
and each deeper integrator `j+1` advances by `dt` times the value integrator
`j` was just updated to within the same cycle. -/
theorem multi_integral_cascade_recurrence (pr : MIPIDParams) (s : MIPIDState) (error : ℚ) :
    (0 < s.error_integral.length →
      (MultiIntegralPIDController.tentative_integrals pr s error).getD 0 0
        = s.error_integral.getD 0 0 + error * pr.i_rate) ∧
    (∀ j : ℕ, j + 1 < s.error_integral.length →
      (MultiIntegralPIDController.tentative_integrals pr s error).getD (j + 1) 0
        = s.error_integral.getD (j + 1) 0
          + (MultiIntegralPIDController.tentative_integrals pr s error).getD j 0
            * pr.i_rate) := by
  have head : ∀ (signal : ℚ) (l : List ℚ), 0 < l.length →
      (cascadeStep pr.i_rate signal l).getD 0 0 = l.getD 0 0 + signal * pr.i_rate := by
    intro signal l hl
    cases l with
    | nil => simp at hl
    | cons v rest => simp [cascadeStep]
  have step : ∀ (signal : ℚ) (l : List ℚ) (j : ℕ), j + 1 < l.length →
      (cascadeStep pr.i_rate signal l).getD (j + 1) 0
        = l.getD (j + 1) 0 + (cascadeStep pr.i_rate signal l).getD j 0 * pr.i_rate := by
    intro signal l
    induction l generalizing signal with
    | nil => intro j hj; simp at hj
    | cons v rest ih =>
      intro j hj
      cases j with
      | zero =>
        have hrest : 0 < rest.length := by
          simpa using hj
        simpa [cascadeStep] using head (v + signal * pr.i_rate) rest hrest
      | succ k =>
        have hk : k + 1 < rest.length := by
          simpa using hj
        simpa [cascadeStep] using ih (v + signal * pr.i_rate) k hk
  exact ⟨head error s.error_integral, step error s.error_integral⟩

/-- Witness for `multi_integral_cascade_recurrence`: concrete two-integrator
chain, checking both the head advance and the cascaded second integrator. -/
theorem multi_integral_cascade_recurrence_witness :
    (MultiIntegralPIDController.tentative_integrals mipidFix mipidState 1).getD 0 0
      = mipidState.error_integral.getD 0 0 + 1 * mipidFix.i_rate ∧
    (MultiIntegralPIDController.tentative_integrals mipidFix mipidState 1).getD 1 0
      = mipidState.error_integral.getD 1 0
        + (MultiIntegralPIDController.tentative_integrals mipidFix mipidState 1).getD 0 0
          * mipidFix.i_rate :=
  ⟨(multi_integral_cascade_recurrence mipidFix mipidState 1).1
      (by norm_num [mipidState]),
   (multi_integral_cascade_recurrence mipidFix mipidState 1).2 0
      (by norm_num [mipidState])⟩

/-- C9: constructing a `MultiIntegralPIDController` with an empty integral-gain
list fails immediately with the configuration `ValueError` and produces no
controller; with any non-empty list of constants or speed-schedule tables it
succeeds, yielding a controller whose integrator chain has one zeroed state per
gain. -/
theorem multi_integral_construction (k_p : KiSpec) (k_i : List KiSpec) (k_f : ℚ)
    (k_d : KiSpec) (pos_limit neg_limit rate : ℚ) :
    (k_i = [] →
      MultiIntegralPIDController.mk_controller k_p k_i k_f k_d pos_limit neg_limit rate
        = Except.error ("k_i must be a non-empty list of coefficients/tables")) ∧
    (k_i ≠ [] →
      ∃ c : MIPIDParams × MIPIDState,
        MultiIntegralPIDController.mk_controller k_p k_i k_f k_d pos_limit neg_limit rate
          = Except.ok c
        ∧ c.2.error_integral = List.replicate k_i.length 0
        ∧ c.1.k_i_list = k_i.map KiSpec.toTable) := by
  constructor
  · intro h
    subst h
    rfl
  · intro h
    have hne : k_i.isEmpty = false := by simp [List.isEmpty_iff, h]
    unfold MultiIntegralPIDController.mk_controller
    rw [hne]
    exact ⟨_, rfl, rfl, rfl⟩

/-- Witness for `multi_integral_construction`: the empty list is rejected, and
a concrete one-element list succeeds with a single zeroed integrator. -/
theorem multi_integral_construction_witness :
    MultiIntegralPIDController.mk_controller (KiSpec.const 1) [] 0 (KiSpec.const 0) 1 (-1) 100
      = Except.error ("k_i must be a non-empty list of coefficients/tables") ∧
    ∃ c : MIPIDParams × MIPIDState,
      MultiIntegralPIDController.mk_controller (KiSpec.const 1) [KiSpec.const 2] 0
          (KiSpec.const 0) 1 (-1) 100
        = Except.ok c
      ∧ c.2.error_integral = List.replicate 1 0
      ∧ c.1.k_i_list = [KiSpec.const 2].map KiSpec.toTable :=
  ⟨(multi_integral_construction (KiSpec.const 1) [] 0 (KiSpec.const 0) 1 (-1) 100).1 rfl,
   (multi_integral_construction (KiSpec.const 1) [KiSpec.const 2] 0
      (KiSpec.const 0) 1 (-1) 100).2 (List.cons_ne_nil _ _)⟩

/-! ## LateralErrorPI (`selfdrive/controls/lib/pid_lateral_error.py`)

The double-integrator error tracker.  Its gain derivation takes a square root
(`** 0.5`), so this component is embedded over `ℝ` with `Real.sqrt`
(the radicand is a square divided by a positive constant, hence nonnegative,
where Python's `** 0.5` agrees with the real square root). -/

structure LatPIParams where
  kp_bp : List ℝ
  kp_v : List ℝ
  ki_bp : List ℝ
  ki_v : List ℝ
  kd_bp : List ℝ
  kd_v : List ℝ
  k_f : ℝ
  pos_limit : ℝ
  neg_limit : ℝ
  i_unwind_rate : ℝ
  i_rate : ℝ

/-- The mutable numeric attributes of a `LateralErrorPI` instance
(`p`, `e`, `e_dot`, `d`, `f`, `control` are set by `reset`; `i` and `speed`
are rewritten by every `update`). -/
structure LatPIState where
  p : ℝ
  e : ℝ
  e_dot : ℝ
  d : ℝ
  f : ℝ
  i : ℝ
  control : ℝ
  speed : ℝ

/-- The `old_k_i` property: the legacy speed-scheduled integral gain. -/
noncomputable def LateralErrorPI.old_k_i (pr : LatPIParams) (speed : ℝ) : ℝ :=
  interp speed pr.ki_bp pr.ki_v

/-- The `k_i__and__k_ii` property (`pid_lateral_error.py` lines 37-62):
`alpha = 0.25`, `k_i_squared = old_k_i**2 / (1 + alpha/4)`,
`k_i = k_i_squared ** 0.5`, `k_ii = k_i_squared * alpha / 4`. -/
noncomputable def LateralErrorPI.k_i__and__k_ii (pr : LatPIParams) (speed : ℝ) : ℝ × ℝ :=
  let alpha : ℝ := 0.25
  let k_i_squared := (LateralErrorPI.old_k_i pr speed) ^ 2 / (1 + alpha / 4)
  (Real.sqrt k_i_squared, k_i_squared * alpha / 4)

/-- `LateralErrorPI.update`: one cycle of `pid_lateral_error.py` lines 81-127.
The `override` branch unwinds `e` and `e_dot` toward zero; otherwise the
semi-implicit Euler advance is computed and committed under the conditional
anti-windup law, with `reset_integrator` forcing the state to zero and the
frozen case still applying the pure rotation. -/
noncomputable def LateralErrorPI.update (pr : LatPIParams) (s : LatPIState)
    (error yaw_rate error_rate speed : ℝ) (override : Bool) (feedforward : ℝ)
    (freeze_integrator reset_integrator : Bool) : LatPIState :=
  let k_p := interp speed pr.kp_bp pr.kp_v
  let k_d := interp speed pr.kd_bp pr.kd_v
  let p := error * k_p
  let f := feedforward * pr.k_f
  let d := error_rate * k_d
  if override then
    { p := p, e := s.e - pr.i_unwind_rate * npSign s.e,
      e_dot := s.e_dot - pr.i_unwind_rate * npSign s.e_dot,
      d := d, f := f, i := 0,
      control := clip (p + 0 + d + f) pr.neg_limit pr.pos_limit, speed := speed }
  else
    let e1 := s.e + s.e_dot * pr.i_rate
    let e_dot1 := s.e_dot + (-(yaw_rate ^ 2) * e1 + error) * pr.i_rate
    let kk := LateralErrorPI.k_i__and__k_ii pr speed
    let i := s.e * kk.2 + s.e_dot * kk.1
    let control := p + i + d + f
    let ed :=
      if reset_integrator then ((0:ℝ), (0:ℝ))
      else if ((error ≥ 0 ∧ (control ≤ pr.pos_limit ∨ i < 0)) ∨
               (error ≤ 0 ∧ (control ≥ pr.neg_limit ∨ i > 0))) ∧ ¬freeze_integrator then
        (e1, e_dot1)
      else
        let e2 := s.e + s.e_dot * pr.i_rate
        let e_dot2 := s.e_dot - yaw_rate ^ 2 * e2 * pr.i_rate
        (e2, e_dot2)
    { p := p, e := ed.1, e_dot := ed.2, d := d, f := f, i := i,
      control := clip (p + i + d + f) pr.neg_limit pr.pos_limit, speed := speed }

/-- C4 (amended): under `override=True` with a nonnegative unwind rate, one
cycle subtracts exactly the unwind rate from `|e|` provided `|e|` is at least
the unwind rate, and an exactly-zero `e` stays zero.  (When `0 < |e|` is
smaller than the unwind rate the update overshoots past zero — see the
counterexample.) -/
theorem lateral_error_pi_override_unwind (pr : LatPIParams) (s : LatPIState)
    (error yaw_rate error_rate speed feedforward : ℝ)
    (freeze_integrator reset_integrator : Bool) (hu : 0 ≤ pr.i_unwind_rate) :
    (pr.i_unwind_rate ≤ |s.e| →
      |(LateralErrorPI.update pr s error yaw_rate error_rate speed true feedforward
          freeze_integrator reset_integrator).e| = |s.e| - pr.i_unwind_rate) ∧
    (s.e = 0 →
      (LateralErrorPI.update pr s error yaw_rate error_rate speed true feedforward
          freeze_integrator reset_integrator).e = 0) := by
  have he : (LateralErrorPI.update pr s error yaw_rate error_rate speed true feedforward
      freeze_integrator reset_integrator).e = s.e - pr.i_unwind_rate * npSign s.e := rfl
  constructor
  · intro h
    rcases lt_trichotomy s.e 0 with hlt | heq | hgt
    · have hs : npSign s.e = -1 := by
        simp [npSign, hlt, asymm hlt]
      have habs : |s.e| = -s.e := abs_of_neg hlt
      rw [he, hs, habs]
      rw [abs_of_nonpos (by rw [habs] at h; linarith)]
      ring
    · have hs : npSign s.e = 0 := by
        simp [npSign, heq]
      have hzero : pr.i_unwind_rate = 0 := by
        rw [heq] at h
        simp at h
        linarith
      rw [he, hs, heq, hzero]
      simp
    · have hs : npSign s.e = 1 := by
        simp [npSign, hgt]
      have habs : |s.e| = s.e := abs_of_pos hgt
      rw [he, hs, habs]
      rw [abs_of_nonneg (by rw [habs] at h; linarith)]
      ring
  · intro h0
    rw [he, h0]
    simp [npSign]

/-- Fixture: LateralErrorPI params with `old_k_i = 1`, limits `(-1, 1)`,
rate 100 (so `i_unwind_rate = 0.3/100 = 3/1000`, `i_rate = 1/100`). -/
noncomputable def latpiFix : LatPIParams :=
  { kp_bp := [0], kp_v := [0], ki_bp := [0], ki_v := [1], kd_bp := [0], kd_v := [0],
    k_f := 0, pos_limit := 1, neg_limit := -1, i_unwind_rate := 3/1000, i_rate := 1/100 }

/-- Fixture: state with `e = 1` (well above the unwind rate). -/
noncomputable def latpiStateOne : LatPIState :=
  { p := 0, e := 1, e_dot := 0, d := 0, f := 0, i := 0, control := 0, speed := 0 }

/-- Fixture: state with `e = 1/1000`, strictly between 0 and the unwind rate. -/
noncomputable def latpiStateSmall : LatPIState :=
  { p := 0, e := 1/1000, e_dot := 0, d := 0, f := 0, i := 0, control := 0, speed := 0 }

/-- Witness for `lateral_error_pi_override_unwind`: with `e = 1` one override
cycle removes exactly the unwind rate from `|e|`. -/
theorem lateral_error_pi_override_unwind_witness :
    |(LateralErrorPI.update latpiFix latpiStateOne 0 0 0 0 true 0 false false).e|
      = |latpiStateOne.e| - latpiFix.i_unwind_rate :=
  (lateral_error_pi_override_unwind latpiFix latpiStateOne 0 0 0 0 0 false false
      (by norm_num [latpiFix])).1 (by norm_num [latpiFix, latpiStateOne])

/-- Counterexample for C4 as stated: with `0 < e = 1/1000` below the unwind
rate `3/1000`, one override cycle drives `e` to `-1/500`, overshooting past
zero, and `|e|` increases rather than decreasing. -/
theorem lateral_error_pi_override_unwind_cex :
    (0:ℝ) < latpiStateSmall.e ∧
    (LateralErrorPI.update latpiFix latpiStateSmall 0 0 0 0 true 0 false false).e
      = -(1/500) ∧
    |latpiStateSmall.e| <
      |(LateralErrorPI.update latpiFix latpiStateSmall 0 0 0 0 true 0 false false).e| := by
  have he : (LateralErrorPI.update latpiFix latpiStateSmall 0 0 0 0 true 0 false false).e
      = latpiStateSmall.e - latpiFix.i_unwind_rate * npSign latpiStateSmall.e := rfl
  have hs : npSign latpiStateSmall.e = 1 := by
    norm_num [npSign, latpiStateSmall]
  have hval : (LateralErrorPI.update latpiFix latpiStateSmall 0 0 0 0 true 0 false false).e
      = -(1/500) := by
    rw [he, hs]
    norm_num [latpiFix, latpiStateSmall]
  refine ⟨by norm_num [latpiStateSmall], hval, ?_⟩
  rw [hval]
  norm_num [latpiStateSmall, abs_of_pos]

/-- C5 (amended): with `override` false, calling `update` with
`reset_integrator=True` forces the stored state to exactly `(e, e_dot) = (0, 0)`
whatever the prior state and the other inputs.  (With `override=True` the
override branch takes precedence and `reset_integrator` is ignored — see the
counterexample.) -/
theorem lateral_error_pi_reset (pr : LatPIParams) (s : LatPIState)
    (error yaw_rate error_rate speed feedforward : ℝ) (freeze_integrator : Bool) :
    (LateralErrorPI.update pr s error yaw_rate error_rate speed false feedforward
        freeze_integrator true).e = 0 ∧
    (LateralErrorPI.update pr s error yaw_rate error_rate speed false feedforward
        freeze_integrator true).e_dot = 0 :=
  ⟨rfl, rfl⟩

/-- Counterexample for C5 as stated: with `override=True` and
`reset_integrator=True` simultaneously, the stored `e` is unwound, not zeroed
(prior `e = 1` becomes `997/1000 ≠ 0`), because the override branch runs first. -/
theorem lateral_error_pi_reset_cex :
    (LateralErrorPI.update latpiFix latpiStateOne 0 0 0 0 true 0 false true).e
      = 997/1000 ∧
    (997/1000 : ℝ) ≠ 0 := by
  have he : (LateralErrorPI.update latpiFix latpiStateOne 0 0 0 0 true 0 false true).e
      = latpiStateOne.e - latpiFix.i_unwind_rate * npSign latpiStateOne.e := rfl
  have hs : npSign latpiStateOne.e = 1 := by
    norm_num [npSign, latpiStateOne]
  constructor
  · rw [he, hs]
    norm_num [latpiFix, latpiStateOne]
  · norm_num

/-- The square of the derived `k_i` is exactly `old_k_i^2 / (1 + alpha/4)`:
the radicand is nonnegative, so `** 0.5` squared recovers it. -/
theorem lateral_error_pi_k_i_sq (pr : LatPIParams) (speed : ℝ) :
    (LateralErrorPI.k_i__and__k_ii pr speed).1 ^ 2
      = (LateralErrorPI.old_k_i pr speed) ^ 2 / (1 + (0.25:ℝ) / 4) :=
  Real.sq_sqrt (by positivity)

/-- C6 (amended): the derived gains satisfy the exact energy-split identity
`old_k_i^2 = k_i^2 + k_ii`, the one stated in the source's derivation comment
(the claimed variant with an extra factor `(1 + alpha/4)` on `k_ii` fails —
see the counterexample). -/
theorem lateral_error_pi_gain_identity (pr : LatPIParams) (speed : ℝ) :
    (LateralErrorPI.k_i__and__k_ii pr speed).1 ^ 2
      + (LateralErrorPI.k_i__and__k_ii pr speed).2
      = (LateralErrorPI.old_k_i pr speed) ^ 2 := by
  have h2 : (LateralErrorPI.k_i__and__k_ii pr speed).2
      = (LateralErrorPI.old_k_i pr speed) ^ 2 / (1 + (0.25:ℝ) / 4) * 0.25 / 4 := rfl
  rw [lateral_error_pi_k_i_sq, h2]
  norm_num
  ring

/-- Counterexample for C6 as stated: at `old_k_i = 1` the claimed relation
`old_k_i^2 ≈ k_i^2 + k_ii*(1 + alpha/4)` is off by exactly `1/272`, far beyond
floating tolerance (taking 1/1000 as a generous tolerance). -/
theorem lateral_error_pi_gain_identity_cex :
    ¬ (|(LateralErrorPI.k_i__and__k_ii latpiFix 0).1 ^ 2
        + (LateralErrorPI.k_i__and__k_ii latpiFix 0).2 * (1 + (0.25:ℝ) / 4)
        - (LateralErrorPI.old_k_i latpiFix 0) ^ 2| ≤ 1/1000) := by
  have hold : LateralErrorPI.old_k_i latpiFix 0 = 1 := rfl
  have h2 : (LateralErrorPI.k_i__and__k_ii latpiFix 0).2
      = (LateralErrorPI.old_k_i latpiFix 0) ^ 2 / (1 + (0.25:ℝ) / 4) * 0.25 / 4 := rfl
  have hexpr : (LateralErrorPI.k_i__and__k_ii latpiFix 0).1 ^ 2
      + (LateralErrorPI.k_i__and__k_ii latpiFix 0).2 * (1 + (0.25:ℝ) / 4)
      - (LateralErrorPI.old_k_i latpiFix 0) ^ 2 = 1/272 := by
    rw [lateral_error_pi_k_i_sq, h2, hold]
    norm_num
  rw [hexpr, abs_of_pos (by norm_num)]
  norm_num

/-- A Python attribute value of a `LateralErrorPI` instance: a float, a
`[[speeds], [values]]` gain table, the pair returned by `k_i__and__k_ii`, or a
bound method/property of non-numeric kind. -/
inductive PyAttr where
  | num : ℝ → PyAttr
  | table : List ℝ → List ℝ → PyAttr
  | pair : ℝ → ℝ → PyAttr
  | method : PyAttr

/-- Python attribute resolution on a `LateralErrorPI` instance: exactly the
names assigned in `__init__`/`reset`/`update` and the properties and methods
defined on the class in `pid_lateral_error.py`.  Any other name — in
particular `k_ii`, which is never assigned anywhere in the class — resolves to
`none`, i.e. raises `AttributeError`. -/
noncomputable def LateralErrorPI.getattr (pr : LatPIParams) (s : LatPIState) :
    String → Option PyAttr
  | "_k_p" => some (PyAttr.table pr.kp_bp pr.kp_v)
  | "_k_i" => some (PyAttr.table pr.ki_bp pr.ki_v)
  | "_k_d" => some (PyAttr.table pr.kd_bp pr.kd_v)
  | "k_f" => some (PyAttr.num pr.k_f)
  | "pos_limit" => some (PyAttr.num pr.pos_limit)
  | "neg_limit" => some (PyAttr.num pr.neg_limit)
  | "i_unwind_rate" => some (PyAttr.num pr.i_unwind_rate)
  | "i_rate" => some (PyAttr.num pr.i_rate)
  | "speed" => some (PyAttr.num s.speed)
  | "p" => some (PyAttr.num s.p)
  | "e" => some (PyAttr.num s.e)
  | "e_dot" => some (PyAttr.num s.e_dot)
  | "d" => some (PyAttr.num s.d)
  | "f" => some (PyAttr.num s.f)
  | "i" => some (PyAttr.num s.i)
  | "control" => some (PyAttr.num s.control)
  | "k_p" => some (PyAttr.num (interp s.speed pr.kp_bp pr.kp_v))
  | "old_k_i" => some (PyAttr.num (LateralErrorPI.old_k_i pr s.speed))
  | "k_i__and__k_ii" => some (PyAttr.pair (LateralErrorPI.k_i__and__k_ii pr s.speed).1
      (LateralErrorPI.k_i__and__k_ii pr s.speed).2)
  | "k_d" => some (PyAttr.num (interp s.speed pr.kd_bp pr.kd_v))
  | "error_integral" => some PyAttr.method
  | "reset" => some PyAttr.method
  | "update" => some PyAttr.method
  | _ => none

/-- The body of the `error_integral` property (`pid_lateral_error.py` lines
69-71): `return self.e/self.k_ii`, with the attribute read `self.k_ii`
performed through Python attribute resolution. -/
noncomputable def LateralErrorPI.error_integral (pr : LatPIParams) (s : LatPIState) :
    Except String ℝ :=
  match LateralErrorPI.getattr pr s "k_ii" with
  | some (PyAttr.num k) => Except.ok (s.e / k)
  | some _ => Except.error ("TypeError")
  | none => Except.error ("AttributeError: LateralErrorPI object has no attribute k_ii")

/-- C7: reading `error_integral` never succeeds — for every instance the
attribute read `self.k_ii` raises `AttributeError`, because the class derives
that gain only as the second component of `k_i__and__k_ii` and never defines an
attribute or property named `k_ii`. -/
theorem lateral_error_pi_error_integral_raises (pr : LatPIParams) (s : LatPIState) :
    LateralErrorPI.error_integral pr s
      = Except.error ("AttributeError: LateralErrorPI object has no attribute k_ii") := rfl

/-! ## LatControlTorque (`selfdrive/controls/lib/latcontrol_torque.py`)

External collaborators (the vehicle model's `calc_curvature`, the car
interface's `torque_from_lateral_accel`, the gravity constant and
`FRICTION_THRESHOLD`) are parameters of the embedding; `calc_curvature`
stands for the composite `VM.calc_curvature(math.radians(·), ·, ·)`, the
degree-to-radian conversion being absorbed into the opaque collaborator.
The log record is not modelled; `update` returns the pair of outputs and the
internal PID state. -/

structure TorqueParams where
  latAccelFactor : ℚ
  latAccelOffset : ℚ
  friction : ℚ

structure LatTorqueExt where
  torque_from_lateral_accel : ℚ → TorqueParams → ℚ → ℚ → Bool → Bool → ℚ
  calc_curvature : ℚ → ℚ → ℚ → ℚ
  gravity : ℚ
  friction_threshold : ℚ

structure LatTorqueCfg where
  torque_params : TorqueParams
  steer_max : ℚ
  use_steering_angle : Bool
  steering_angle_deadzone_deg : ℚ
  relaxation_time : ℚ
  pid : PIDParams

structure CarState where
  vEgo : ℚ
  steeringAngleDeg : ℚ
  steeringPressed : Bool

structure LiveParams where
  angleOffsetDeg : ℚ
  roll : ℚ

/-- `LOW_SPEED_X` (`latcontrol_torque.py` line 22). -/
def LOW_SPEED_X : List ℚ := [0, 10, 20, 30]

/-- `LOW_SPEED_Y` (`latcontrol_torque.py` line 23). -/
def LOW_SPEED_Y : List ℚ := [15, 13, 10, 5]

/-- Modelled from the spec: the deadzone applied inside the friction model
("... the sign of the acceleration-tracking error outside a speed-scaled
deadzone"): inputs inside `[-deadzone, deadzone]` are zeroed, outside it the
deadzone is subtracted. -/
def apply_deadzone (error deadzone : ℚ) : ℚ :=
  if error > deadzone then error - deadzone
  else if error < -deadzone then error + deadzone
  else 0

/-- Modelled from the spec: `get_friction` of
`openpilot/selfdrive/controls/lib/drive_helpers.py`, which is not under src/
("Friction compensation ... a bounded correction proportional to the sign of
the acceleration-tracking error outside a speed-scaled deadzone, capped by a
friction threshold (supplied externally)"; interface
`friction(lateral_accel_error, deadzone, threshold, params, enabled) ->
torque_correction`): linear in the deadzoned error, saturating at
`±torque_params.friction` once the error passes `±friction_threshold`. -/
def get_friction (lateral_accel_error lateral_accel_deadzone friction_threshold
    friction_param : ℚ) (friction_compensation : Bool) : ℚ :=
  if friction_compensation then
    interp (apply_deadzone lateral_accel_error lateral_accel_deadzone)
      [-friction_threshold, friction_threshold] [-friction_param, friction_param]
  else 0

/-- `LatControlTorque.get_torque` (`latcontrol_torque.py` lines 47-66): the
low-speed curvature correction, the roll-gravity correction, and the call into
the externally supplied torque curve (with the chain-rule factor in
differential mode). -/
def LatControlTorque.get_torque (ext : LatTorqueExt) (cfg : LatTorqueCfg)
    (lateral_accel vEgo roll : ℚ) (friction_compensation diff : Bool) : ℚ :=
  let low_speed_factor := (interp vEgo LOW_SPEED_X LOW_SPEED_Y) ^ 2
  let low_speed_accel_multiplier := 1 + low_speed_factor / vEgo ^ 2
  let la := low_speed_accel_multiplier * lateral_accel - roll * ext.gravity
  if diff then
    ext.torque_from_lateral_accel la cfg.torque_params 0 cfg.steering_angle_deadzone_deg
      friction_compensation true * low_speed_accel_multiplier
  else
    ext.torque_from_lateral_accel la cfg.torque_params 0 cfg.steering_angle_deadzone_deg
      friction_compensation false

/-- `LatControlTorque.get_steer_from_desired_jerk` (lines 68-84):
`steer = f(a) + f'(a) * T * desired_jerk`. -/
def LatControlTorque.get_steer_from_desired_jerk (ext : LatTorqueExt) (cfg : LatTorqueCfg)
    (desired_jerk relaxation_time lateral_accel vEgo roll : ℚ) : ℚ :=
  let feedback_term := LatControlTorque.get_torque ext cfg lateral_accel vEgo roll false false
  let gain := LatControlTorque.get_torque ext cfg lateral_accel vEgo roll false true
    * relaxation_time
  feedback_term + gain * desired_jerk

/-- `LatControlTorque.update` (lines 87-149).  Returns
`(-output_torque, 0.0, pid state)`: the signed steer command, the constant
secondary output, and the internal `PIDController` state after the cycle. -/
def LatControlTorque.update (ext : LatTorqueExt) (cfg : LatTorqueCfg)
    (pid_state : PIDState) (active : Bool) (CS : CarState) (params : LiveParams)
    (steer_limited : Bool) (desired_curvature desired_curvature_rate yaw_rate_llk : ℚ) :
    ℚ × ℚ × PIDState :=
  if active then
    let acd :=
      if cfg.use_steering_angle then
        (-(ext.calc_curvature (CS.steeringAngleDeg - params.angleOffsetDeg) CS.vEgo params.roll),
         |ext.calc_curvature cfg.steering_angle_deadzone_deg CS.vEgo 0|)
      else
        let actual_curvature_vm :=
          -(ext.calc_curvature (CS.steeringAngleDeg - params.angleOffsetDeg) CS.vEgo params.roll)
        let actual_curvature_llk := yaw_rate_llk / CS.vEgo
        (interp CS.vEgo [2, 5] [actual_curvature_vm, actual_curvature_llk], 0)
    let actual_lateral_accel := acd.1 * CS.vEgo ^ 2
    let desired_lateral_accel := desired_curvature * CS.vEgo ^ 2
    let feedforward_jerk := desired_curvature_rate * CS.vEgo ^ 2
    let pid_error := desired_lateral_accel - actual_lateral_accel
    let freeze_integrator : Bool :=
      steer_limited || CS.steeringPressed || (if CS.vEgo < 5 then true else false)
    let pid_next := PIDController.update cfg.pid pid_state pid_error 0 CS.vEgo 0
      freeze_integrator
    let feedback_jerk := pid_next.control
    let steer := LatControlTorque.get_steer_from_desired_jerk ext cfg
      (feedforward_jerk + feedback_jerk) cfg.relaxation_time actual_lateral_accel
      CS.vEgo params.roll
    let output_torque := clip steer (-cfg.steer_max) cfg.steer_max
    let output_torque_with_friction := output_torque
      + get_friction (desired_lateral_accel - actual_lateral_accel)
          (acd.2 * CS.vEgo ^ 2) ext.friction_threshold cfg.torque_params.friction true
    (-output_torque_with_friction, 0, pid_next)
  else
    (-(0:ℚ), 0, pid_state)

/-- C10: with `active` false, `update` returns steering command `0.0` and
secondary output `0.0` and leaves the internal PID state — every field of it —
exactly as it was; the PID is not consulted at all. -/
theorem latcontrol_inactive_frame (ext : LatTorqueExt) (cfg : LatTorqueCfg)
    (pid_state : PIDState) (CS : CarState) (params : LiveParams) (steer_limited : Bool)
    (desired_curvature desired_curvature_rate yaw_rate_llk : ℚ) :
    LatControlTorque.update ext cfg pid_state false CS params steer_limited
        desired_curvature desired_curvature_rate yaw_rate_llk
      = (0, 0, pid_state) := by
  have h : LatControlTorque.update ext cfg pid_state false CS params steer_limited
      desired_curvature desired_curvature_rate yaw_rate_llk
      = (-(0:ℚ), 0, pid_state) := rfl
  rw [h]
  norm_num

/-- The symmetric two-point interpolation is bounded by its endpoint value. -/
theorem interp_symm_bound (x t f : ℚ) (hf : 0 ≤ f) :
    -f ≤ interp x [-t, t] [-f, f] ∧ interp x [-t, t] [-f, f] ≤ f := by
  have hrw : interp x [-t, t] [-f, f]
      = if x ≤ -t then -f
        else if x ≤ t then -f + (f - -f) * (x - -t) / (t - -t)
        else f := rfl
  rw [hrw]
  by_cases h1 : x ≤ -t
  · rw [if_pos h1]
    exact ⟨le_rfl, by linarith⟩
  · rw [if_neg h1]
    by_cases h2 : x ≤ t
    · rw [if_pos h2]
      have hx : -t < x := lt_of_not_le h1
      have ht : 0 < t - -t := by linarith
      have hnum : 0 ≤ (f - -f) * (x - -t) := by nlinarith
      have hle : (f - -f) * (x - -t) / (t - -t) ≤ f - -f := by
        rw [div_le_iff₀ ht]
        nlinarith
      have hge : 0 ≤ (f - -f) * (x - -t) / (t - -t) := div_nonneg hnum (le_of_lt ht)
      constructor <;> linarith
    · rw [if_neg h2]
      exact ⟨by linarith, le_rfl⟩

/-- The friction correction is capped by `torque_params.friction`. -/
theorem get_friction_abs_le (e dz thr fp : ℚ) (hfp : 0 ≤ fp) :
    |get_friction e dz thr fp true| ≤ fp := by
  have hg : get_friction e dz thr fp true
      = interp (apply_deadzone e dz) [-thr, thr] [-fp, fp] := rfl
  rw [hg, abs_le]
  exact interp_symm_bound (apply_deadzone e dz) thr fp hfp

/-- The clipped steer command is bounded by `steer_max`. -/
theorem clip_abs_le (x m : ℚ) (hm : 0 ≤ m) : |clip x (-m) m| ≤ m := by
  rw [abs_le, clip]
  exact ⟨le_max_left _ _, max_le (by linarith) (min_le_left _ _)⟩

/-- The negated sum of a clipped value and a bounded correction is bounded by
the sum of the two bounds. -/
theorem neg_clip_add_bound (a b m f : ℚ) (hm : 0 ≤ m) (hb : |b| ≤ f) :
    |-(clip a (-m) m + b)| ≤ m + f := by
  rw [abs_neg]
  calc |clip a (-m) m + b| ≤ |clip a (-m) m| + |b| := abs_add _ _
    _ ≤ m + f := add_le_add (clip_abs_le a m hm) hb

/-- C1 (amended): with `active` true the steer command produced by feedback
linearization is clipped to `[-steer_max, steer_max]` *before* the friction
compensation is added, so the returned signed command is bounded by
`steer_max + torque_params.friction` in absolute value — not by `steer_max`
(see the counterexample). -/
theorem latcontrol_output_bounded (ext : LatTorqueExt) (cfg : LatTorqueCfg)
    (pid_state : PIDState) (CS : CarState) (params : LiveParams) (steer_limited : Bool)
    (desired_curvature desired_curvature_rate yaw_rate_llk : ℚ)
    (hmax : 0 ≤ cfg.steer_max) (hfr : 0 ≤ cfg.torque_params.friction) :
    |(LatControlTorque.update ext cfg pid_state true CS params steer_limited
        desired_curvature desired_curvature_rate yaw_rate_llk).1|
      ≤ cfg.steer_max + cfg.torque_params.friction :=
  neg_clip_add_bound _ _ _ _ hmax (get_friction_abs_le _ _ _ _ hfr)

/-- Fixture: external collaborators for the torque controller — a torque curve
that is constantly 5 with zero derivative, a vehicle model returning zero
curvature, standard gravity, and `FRICTION_THRESHOLD = 0.3`. -/
def cexExt : LatTorqueExt :=
  { torque_from_lateral_accel := fun _la _tp _x _dz _fc diff => if diff then 0 else 5,
    calc_curvature := fun _a _v _r => 0,
    gravity := 981/100,
    friction_threshold := 3/10 }

/-- Fixture: torque-controller configuration with `steer_max = 1`, friction
parameter `0.1`, zero PID gains and the constructor's `±1e308` PID limits. -/
def cexCfg : LatTorqueCfg :=
  { torque_params := { latAccelFactor := 1, latAccelOffset := 0, friction := 1/10 },
    steer_max := 1, use_steering_angle := true, steering_angle_deadzone_deg := 0,
    relaxation_time := 2,
    pid := { kp_bp := [0], kp_v := [0], ki_bp := [0], ki_v := [0], kd_bp := [0], kd_v := [0],
             k_f := 0, pos_limit := 10 ^ 308, neg_limit := -(10 ^ 308), i_rate := 1/100 } }

/-- Fixture: car state at 10 m/s, straight wheel, no driver override. -/
def cexCS : CarState := { vEgo := 10, steeringAngleDeg := 0, steeringPressed := false }

/-- Fixture: zero angle offset and zero roll. -/
def cexParams : LiveParams := { angleOffsetDeg := 0, roll := 0 }

/-- Witness for `latcontrol_output_bounded`: at the concrete fixture the
returned command indeed stays within `steer_max + friction`. -/
theorem latcontrol_output_bounded_witness :
    |(LatControlTorque.update cexExt cexCfg PIDController.resetState true cexCS cexParams
        false 1 0 0).1|
      ≤ cexCfg.steer_max + cexCfg.torque_params.friction :=
  latcontrol_output_bounded cexExt cexCfg PIDController.resetState cexCS cexParams
    false 1 0 0 (by norm_num [cexCfg]) (by norm_num [cexCfg])

/-- Counterexample for C1 as stated: at the fixture the linearized steer
command saturates at `steer_max = 1` and the friction compensation `0.1` is
added *after* the clip, so the returned command is `-1.1`, strictly outside
`[-steer_max, steer_max]`. -/
theorem latcontrol_output_bounded_cex :
    (LatControlTorque.update cexExt cexCfg PIDController.resetState true cexCS cexParams
        false 1 0 0).1 = -(11/10) ∧
    ¬ (|(LatControlTorque.update cexExt cexCfg PIDController.resetState true cexCS cexParams
        false 1 0 0).1| ≤ cexCfg.steer_max) := by
  have h : (LatControlTorque.update cexExt cexCfg PIDController.resetState true cexCS cexParams
      false 1 0 0).1 = -(11/10) := by
    norm_num [LatControlTorque.update, LatControlTorque.get_steer_from_desired_jerk,
      LatControlTorque.get_torque, get_friction, apply_deadzone,
      PIDController.update, PIDController.tentative_i, PIDController.k_p,
      PIDController.k_i, PIDController.k_d, PIDController.resetState,
      interp, interpSegs, npClip, clip, min_def, max_def,
      LOW_SPEED_X, LOW_SPEED_Y, cexExt, cexCfg, cexCS, cexParams]
  refine ⟨h, ?_⟩
  rw [h, abs_neg, abs_of_pos (show (0:ℚ) < 11/10 by norm_num)]
  norm_num [cexCfg]
